import Mathlib

/-!
# ConcurrentHashMap (p2/server/concurrenthashmap.h)

A shallow embedding of the `ConcurrentHashMap<K, V>` class template and of the
sequential behaviour of its public methods, followed by theorems about the
contract the class documents.

Conventions of the embedding

* A C++ method that writes to `std::cout` and may run caller-supplied
  `std::function` objects is a pure function on an explicit `World`: the text
  written to `std::cout` so far, and the caller's own state `σ`, which is the
  only thing a callback can change.
* `std::function<void()>` is a function `σ → σ`;
  `std::function<void(V &)>` is `V → σ → V × σ` (it may replace the value);
  `std::function<void(const V &)>` is `V → σ → σ`;
  `std::function<void(const K, const V &)>` is `K → V → σ → σ`.
* Every method returns an `Outcome`: the C++ return value, the map object after
  the call, and the world after the call.
-/

namespace P2

/-- The environment a method runs in: what has been written to `std::cout`, and
the state owned by the caller that its callbacks read and write. -/
structure World (σ : Type) where
  cout : List String
  caller : σ
deriving DecidableEq, Repr

/-- The object state of `ConcurrentHashMap<K, V>`.  The class in
`concurrenthashmap.h` declares no data members (no bucket vector, no locks), so
the object carries no data. -/
structure ConcurrentHashMap (K V : Type) where
deriving DecidableEq, Repr

/-- What a method call produces: its return value, the map afterwards and the
world afterwards. -/
structure Outcome (α K V σ : Type) where
  ret : α
  map : ConcurrentHashMap K V
  world : World σ

/-- The statement `std::cout << msg;`. -/
def World.print {σ : Type} (w : World σ) (msg : String) : World σ :=
  { w with cout := w.cout ++ [msg] }

namespace ConcurrentHashMap

variable {K V σ : Type}

/-- `ConcurrentHashMap(size_t)`: the bucket count is an unnamed, unused
parameter; the body only prints. -/
def construct (_buckets : Nat) (w : World σ) : Outcome Unit K V σ :=
  { ret := (), map := {},
    world := w.print "ConcurrentHashMap::ConcurrentHashMap() is not implemented" }

/-- `virtual void clear()`. -/
def clear (m : ConcurrentHashMap K V) (w : World σ) : Outcome Unit K V σ :=
  { ret := (), map := m,
    world := w.print "ConcurrentHashMap::clear() is not implemented" }

/-- `virtual bool insert(K, V, std::function<void()>)`: all three parameters are
unnamed and unused; the body prints and returns `false`. -/
def insert (m : ConcurrentHashMap K V) (_key : K) (_val : V) (_on_success : σ → σ)
    (w : World σ) : Outcome Bool K V σ :=
  { ret := false, map := m,
    world := w.print "ConcurrentHashMap::insert() is not implemented" }

/-- `virtual bool upsert(K, V, std::function<void()>, std::function<void()>)`. -/
def upsert (m : ConcurrentHashMap K V) (_key : K) (_val : V) (_on_ins : σ → σ)
    (_on_upd : σ → σ) (w : World σ) : Outcome Bool K V σ :=
  { ret := false, map := m,
    world := w.print "ConcurrentHashMap::upsert() is not implemented" }

/-- `virtual bool do_with(K, std::function<void(V &)>, std::function<void()>)`. -/
def do_with (m : ConcurrentHashMap K V) (_key : K) (_f : V → σ → V × σ)
    (_on_success : σ → σ) (w : World σ) : Outcome Bool K V σ :=
  { ret := false, map := m,
    world := w.print "ConcurrentHashMap::do_with() is not implemented" }

/-- `virtual bool do_with_readonly(K, std::function<void(const V &)>,
std::function<void()>)`. -/
def do_with_readonly (m : ConcurrentHashMap K V) (_key : K) (_f : V → σ → σ)
    (_on_success : σ → σ) (w : World σ) : Outcome Bool K V σ :=
  { ret := false, map := m,
    world := w.print "ConcurrentHashMap::do_with_readonly() is not implemented" }

/-- `virtual bool remove(K, std::function<void()>)`. -/
def remove (m : ConcurrentHashMap K V) (_key : K) (_on_success : σ → σ)
    (w : World σ) : Outcome Bool K V σ :=
  { ret := false, map := m,
    world := w.print "ConcurrentHashMap::remove() is not implemented" }

/-- `virtual void do_all_readonly(std::function<void(const K, const V &)>,
std::function<void()>)`. -/
def do_all_readonly (m : ConcurrentHashMap K V) (_f : K → V → σ → σ)
    (_then : σ → σ) (w : World σ) : Outcome Unit K V σ :=
  { ret := (), map := m,
    world := w.print "ConcurrentHashMap::do_all_readonly() is not implemented" }

end ConcurrentHashMap

/-! ## Histories: a client issuing a sequence of method calls -/

/-- One method call on a map, with its arguments. -/
inductive Op (K V σ : Type) where
  | clear
  | insert (key : K) (val : V) (on_success : σ → σ)
  | upsert (key : K) (val : V) (on_ins on_upd : σ → σ)
  | do_with (key : K) (f : V → σ → V × σ) (on_success : σ → σ)
  | do_with_readonly (key : K) (f : V → σ → σ) (on_success : σ → σ)
  | remove (key : K) (on_success : σ → σ)
  | do_all_readonly (f : K → V → σ → σ) (done : σ → σ)

/-- A map object together with the world it lives in. -/
structure Session (K V σ : Type) where
  map : ConcurrentHashMap K V
  world : World σ

/-- What is left after a call once its return value is dropped. -/
def Outcome.session {α K V σ : Type} (o : Outcome α K V σ) : Session K V σ :=
  { map := o.map, world := o.world }

/-- Perform one call, discarding its return value. -/
def Op.exec {K V σ : Type} (s : Session K V σ) : Op K V σ → Session K V σ
  | .clear => (ConcurrentHashMap.clear s.map s.world).session
  | .insert k v c => (ConcurrentHashMap.insert s.map k v c s.world).session
  | .upsert k v c d => (ConcurrentHashMap.upsert s.map k v c d s.world).session
  | .do_with k f c => (ConcurrentHashMap.do_with s.map k f c s.world).session
  | .do_with_readonly k f c =>
      (ConcurrentHashMap.do_with_readonly s.map k f c s.world).session
  | .remove k c => (ConcurrentHashMap.remove s.map k c s.world).session
  | .do_all_readonly f c => (ConcurrentHashMap.do_all_readonly s.map f c s.world).session

/-- Perform a sequence of calls, first to last. -/
def runOps {K V σ : Type} (s : Session K V σ) (ops : List (Op K V σ)) : Session K V σ :=
  ops.foldl Op.exec s

/-- A map built with `buckets` buckets in world `w`, after the calls `history`. -/
def after {K V σ : Type} (buckets : Nat) (w : World σ) (history : List (Op K V σ)) :
    Session K V σ :=
  runOps (ConcurrentHashMap.construct buckets w).session history

/-! ## An instrumented caller

Concrete scenarios use `int` keys and values and a caller whose state is the
trace of callback invocations: each callback appends one record of itself. -/

/-- A record of one callback invocation. -/
inductive Call where
  | on_success
  | on_ins
  | on_upd
  | mutator (seen : Int)
  | reader (seen : Int)
  | visitor (key val : Int)
  | on_done
deriving DecidableEq, Repr

/-- A zero-argument callback that records that it ran. -/
def record (c : Call) : List Call → List Call := fun t => t ++ [c]

/-- A reader that records the value it was handed. -/
def recordReader : Int → List Call → List Call := fun v t => t ++ [Call.reader v]

/-- A mutator that adds one to the value and records the value it was handed. -/
def bump : Int → List Call → Int × List Call := fun v t => (v + 1, t ++ [Call.mutator v])

/-- A visitor that records the entry it was handed. -/
def recordVisitor : Int → Int → List Call → List Call := fun k v t => t ++ [Call.visitor k v]

/-- A world in which nothing has been printed and no callback has run. -/
def quiet : World (List Call) := { cout := [], caller := [] }

/-- A newly constructed `ConcurrentHashMap<int, int>(4)`. -/
def fresh : Session Int Int (List Call) := after 4 quiet []

/-- The map `fresh` after `insert(1, 10, on_success)`. -/
def inserted : Session Int Int (List Call) :=
  (ConcurrentHashMap.insert fresh.map 1 10 (record .on_success) fresh.world).session

/-- The map `inserted` after a second `insert(1, 20, on_success)`. -/
def insertedTwice : Session Int Int (List Call) :=
  (ConcurrentHashMap.insert inserted.map 1 20 (record .on_success) inserted.world).session

/-- The map `fresh` after `upsert(1, 10, on_ins, on_upd)`. -/
def upserted : Session Int Int (List Call) :=
  (ConcurrentHashMap.upsert fresh.map 1 10 (record .on_ins) (record .on_upd)
    fresh.world).session

/-- The map `inserted` after `do_with(1, bump, on_success)`. -/
def bumped : Session Int Int (List Call) :=
  (ConcurrentHashMap.do_with inserted.map 1 bump (record .on_success) inserted.world).session

/-! ## Theorems -/

section Contract

open ConcurrentHashMap

variable {K V σ : Type}

/-- Helper: a single call never changes the caller state, whatever callbacks it
was given. -/
theorem Op.exec_caller (s : Session K V σ) (op : Op K V σ) :
    (op.exec s).world.caller = s.world.caller := by
  cases op <;> rfl

/-- Helper: a sequence of calls never changes the caller state. -/
theorem runOps_caller (ops : List (Op K V σ)) (s : Session K V σ) :
    (runOps s ops).world.caller = s.world.caller := by
  induction ops generalizing s with
  | nil => rfl
  | cons op rest ih =>
    show (runOps (op.exec s) rest).world.caller = s.world.caller
    rw [ih, Op.exec_caller]

/-- Claim C1, evaluated on the code: on a newly constructed
`ConcurrentHashMap<int, int>(4)`, where no key is present, `insert(1, 10,
on_success)` returns `false` (the documented result is `true`) and `on_success`
is not run. -/
theorem insert_on_new_map_returns_false :
    (insert fresh.map 1 10 (record .on_success) fresh.world).ret = false ∧
      (insert fresh.map 1 10 (record .on_success) fresh.world).world.caller = [] :=
  ⟨rfl, rfl⟩

/-- Claim C2, evaluated on the code: after `insert(1, 10, _)` and a second
`insert(1, 20, _)` on a new map, the second insert returns `false`, but
`do_with_readonly(1, reader, _)` also returns `false` and `reader` is never
handed the value `10` (the trace of callback invocations stays empty). -/
theorem readonly_after_double_insert_fails :
    (insert inserted.map 1 20 (record .on_success) inserted.world).ret = false ∧
      (do_with_readonly insertedTwice.map 1 recordReader (record .on_success)
        insertedTwice.world).ret = false ∧
      (do_with_readonly insertedTwice.map 1 recordReader (record .on_success)
        insertedTwice.world).world.caller = [] :=
  ⟨rfl, rfl, rfl⟩

/-- Claim C3, evaluated on the code: on a new map `upsert(1, 10, on_ins,
on_upd)` returns `false` (the documented result for an absent key is `true`),
and the following `do_with_readonly(1, reader, _)` returns `false` without
handing `10` to `reader`. -/
theorem upsert_on_new_map_returns_false :
    (upsert fresh.map 1 10 (record .on_ins) (record .on_upd) fresh.world).ret = false ∧
      (do_with_readonly upserted.map 1 recordReader (record .on_success)
        upserted.world).ret = false ∧
      (do_with_readonly upserted.map 1 recordReader (record .on_success)
        upserted.world).world.caller = [] :=
  ⟨rfl, rfl, rfl⟩

/-- Claim C4, evaluated on the code: after `insert(1, 10, _)` on a new map,
`remove(1, on_success)` returns `false` (the documented result is `true`) and
`on_success` is not run. -/
theorem remove_after_insert_returns_false :
    (remove inserted.map 1 (record .on_success) inserted.world).ret = false ∧
      (remove inserted.map 1 (record .on_success) inserted.world).world.caller = [] :=
  ⟨rfl, rfl⟩

/-- Claim C5, evaluated on the code: after `insert(1, 10, _)` on a new map,
`do_with(1, bump, _)` returns `false` and never runs `bump`; the following
`do_with_readonly(1, reader, _)` returns `false` and `reader` is never handed
`bump` applied to `10`. -/
theorem do_with_after_insert_returns_false :
    (do_with inserted.map 1 bump (record .on_success) inserted.world).ret = false ∧
      (do_with inserted.map 1 bump (record .on_success) inserted.world).world.caller = [] ∧
      (do_with_readonly bumped.map 1 recordReader (record .on_success)
        bumped.world).ret = false ∧
      (do_with_readonly bumped.map 1 recordReader (record .on_success)
        bumped.world).world.caller = [] :=
  ⟨rfl, rfl, rfl, rfl⟩

/-- Claim C6, evaluated on the code: `upsert(1, 10, on_ins, on_upd)` on a new
map returns `false` and leaves the trace of callback invocations empty: neither
`on_ins` nor `on_upd` has run, where exactly one invocation of `on_upd` is
documented for a `false` result. -/
theorem upsert_runs_neither_callback :
    (upsert fresh.map 1 10 (record .on_ins) (record .on_upd) fresh.world).ret = false ∧
      (upsert fresh.map 1 10 (record .on_ins) (record .on_upd) fresh.world).world.caller = [] ∧
      (upsert fresh.map 1 10 (record .on_ins) (record .on_upd) fresh.world).world.caller
        ≠ [Call.on_upd] :=
  ⟨rfl, rfl, by decide⟩

/-- Claim C7: whenever `insert`, `do_with`, `do_with_readonly` or `remove`
returns `false`, the caller state is what it was before the call, for every
choice of `on_success`, mutator and reader (so none of them has run), and the
map object is the one the call started from. -/
theorem failure_leaves_map_and_caller_untouched (m : ConcurrentHashMap K V) (w : World σ)
    (key : K) (val : V) (on_success : σ → σ) (mutator : V → σ → V × σ)
    (reader : V → σ → σ) :
    ((insert m key val on_success w).ret = false →
        (insert m key val on_success w).map = m ∧
        (insert m key val on_success w).world.caller = w.caller) ∧
      ((do_with m key mutator on_success w).ret = false →
        (do_with m key mutator on_success w).map = m ∧
        (do_with m key mutator on_success w).world.caller = w.caller) ∧
      ((do_with_readonly m key reader on_success w).ret = false →
        (do_with_readonly m key reader on_success w).map = m ∧
        (do_with_readonly m key reader on_success w).world.caller = w.caller) ∧
      ((remove m key on_success w).ret = false →
        (remove m key on_success w).map = m ∧
        (remove m key on_success w).world.caller = w.caller) :=
  ⟨fun _ => ⟨rfl, rfl⟩, fun _ => ⟨rfl, rfl⟩, fun _ => ⟨rfl, rfl⟩, fun _ => ⟨rfl, rfl⟩⟩

/-- Witness for claim C7 on the map `inserted`: `insert(1, 20, on_success)`
returns `false`, and the map and the trace of callback invocations are
untouched. -/
theorem failure_leaves_map_and_caller_untouched_witness :
    (insert inserted.map 1 20 (record .on_success) inserted.world).ret = false ∧
      (insert inserted.map 1 20 (record .on_success) inserted.world).map = inserted.map ∧
      (insert inserted.map 1 20 (record .on_success) inserted.world).world.caller
        = inserted.world.caller :=
  ⟨rfl, (failure_leaves_map_and_caller_untouched inserted.map inserted.world 1 20
    (record .on_success) bump recordReader).1 rfl⟩

/-- Claim C8, evaluated on the code: on a new (empty) map
`do_all_readonly(visitor, on_done)` leaves the trace of callback invocations
empty, so `on_done` has not run, where exactly one invocation is documented. -/
theorem do_all_readonly_skips_on_done :
    (do_all_readonly fresh.map recordVisitor (record .on_done) fresh.world).world.caller = [] ∧
      (do_all_readonly fresh.map recordVisitor (record .on_done) fresh.world).world.caller
        ≠ [Call.on_done] :=
  ⟨rfl, by decide⟩

/-- Claim C10: for every bucket count, starting world and history of prior
calls, each of `insert`, `upsert`, `do_with`, `do_with_readonly` and `remove`
returns `false` and leaves the caller state as it was before the call, whatever
callbacks it is given; hence the result is the same for any other bucket count,
history, key and value. -/
theorem every_operation_returns_false (buckets : Nat) (w : World σ)
    (history : List (Op K V σ)) (key : K) (val : V) (c d : σ → σ)
    (mutator : V → σ → V × σ) (reader : V → σ → σ) :
    ((insert (after buckets w history).map key val c (after buckets w history).world).ret
        = false ∧
      (insert (after buckets w history).map key val c
        (after buckets w history).world).world.caller
        = (after buckets w history).world.caller) ∧
    ((upsert (after buckets w history).map key val c d
        (after buckets w history).world).ret = false ∧
      (upsert (after buckets w history).map key val c d
        (after buckets w history).world).world.caller
        = (after buckets w history).world.caller) ∧
    ((do_with (after buckets w history).map key mutator c
        (after buckets w history).world).ret = false ∧
      (do_with (after buckets w history).map key mutator c
        (after buckets w history).world).world.caller
        = (after buckets w history).world.caller) ∧
    ((do_with_readonly (after buckets w history).map key reader c
        (after buckets w history).world).ret = false ∧
      (do_with_readonly (after buckets w history).map key reader c
        (after buckets w history).world).world.caller
        = (after buckets w history).world.caller) ∧
    ((remove (after buckets w history).map key c (after buckets w history).world).ret
        = false ∧
      (remove (after buckets w history).map key c
        (after buckets w history).world).world.caller
        = (after buckets w history).world.caller) ∧
    (after buckets w history).world.caller = w.caller ∧
    ∀ (buckets2 : Nat) (history2 : List (Op K V σ)) (key2 : K) (val2 : V),
      (insert (after buckets2 w history2).map key2 val2 c
          (after buckets2 w history2).world).ret
        = (insert (after buckets w history).map key val c
          (after buckets w history).world).ret ∧
      (upsert (after buckets2 w history2).map key2 val2 c d
          (after buckets2 w history2).world).ret
        = (upsert (after buckets w history).map key val c d
          (after buckets w history).world).ret ∧
      (do_with (after buckets2 w history2).map key2 mutator c
          (after buckets2 w history2).world).ret
        = (do_with (after buckets w history).map key mutator c
          (after buckets w history).world).ret ∧
      (do_with_readonly (after buckets2 w history2).map key2 reader c
          (after buckets2 w history2).world).ret
        = (do_with_readonly (after buckets w history).map key reader c
          (after buckets w history).world).ret ∧
      (remove (after buckets2 w history2).map key2 c (after buckets2 w history2).world).ret
        = (remove (after buckets w history).map key c (after buckets w history).world).ret := by
  refine ⟨⟨rfl, rfl⟩, ⟨rfl, rfl⟩, ⟨rfl, rfl⟩, ⟨rfl, rfl⟩, ⟨rfl, rfl⟩, ?_, ?_⟩
  · exact runOps_caller history _
  · intro _ _ _ _
    exact ⟨rfl, rfl, rfl, rfl, rfl⟩

end Contract

end P2
